import Mathlib

/-!
Verification of the sovereign-sdk batch pipeline and auxiliary components.

Shallow embedding of:
* `src/full-node/sov-ethereum-gas-oracle/src/cache.rs` (`BlockCache::get_block`),
* `src/module-system/module-implementations/sov-evm/src/evm/primitive_types.rs`
  (`BlockEnv`, `From<&SealedBlock> for BlockEnv`, blob-gas accessors),
* `src/examples/demo-stf/src/genesis_config.rs` (`LOCKED_AMOUNT`,
  `create_genesis_config`, `read_private_key`),
* the batch-execution pipeline described by the specification (the
  `apply_batch` controller itself is not under `src/`; only the `TxHooks`
  trait declaration in `src/sov-modules/sov-app-template/src/tx_hooks.rs` is,
  so the controller is modelled from the specification's words).

Rust `panic!`/`unwrap`/`assert!` terminations are made explicit with the
`PanicOr` type; fallible Rust functions returning `Result`/`anyhow::Result`
are embedded as `Except String`.
-/

/-- Result of running a piece of Rust code that may terminate the process:
either it panics (with a message) or it returns a value. -/
inductive PanicOr (α : Type) where
  | panics (msg : String)
  | returns (a : α)
deriving Repr, DecidableEq

/-! ## Gas-oracle block cache — `src/full-node/sov-ethereum-gas-oracle/src/cache.rs` -/

/-- Block hashes (`H256`), embedded as naturals. -/
abbrev BlockHash := Nat

/-- An RPC `Rich<Block>`; its payload is irrelevant to the cache logic,
so it is embedded as a single opaque field. -/
structure RichBlock where
  payload : Nat
deriving Repr, DecidableEq

/-- The cache map of `BlockCache` (`LruMap<H256, Rich<Block>, ByLength>`),
embedded as an association list: `get` returns the stored value, `insert`
stores a binding.  The LRU eviction policy of the external `schnellru`
crate is irrelevant to the claims and is not modelled. -/
abbrev BlockCacheMap := List (BlockHash × RichBlock)

/-- Embedding of `BlockCache::get_block`.  The embedding takes the current cache
contents and the provider call `Evm::get_block_by_hash` (an external
method, passed as a function returning `EthResult<Option<Rich<Block>>>`,
embedded as `Except String (Option RichBlock)`).  Faithful to the source:
a cache hit returns `Ok(Some(block.clone()))`; on a miss the provider
result is hit with `.unwrap().unwrap()`, so a provider `Err` or a provider
`Ok(None)` panics; otherwise the block is inserted into the cache and
`Ok(Some(block))` is returned.  The returned pair carries the updated
cache contents. -/
def BlockCache.get_block (cache : BlockCacheMap)
    (get_block_by_hash : BlockHash → Except String (Option RichBlock))
    (block_hash : BlockHash) :
    PanicOr ((Except String (Option RichBlock)) × BlockCacheMap) :=
  match cache.lookup block_hash with
  | some block => .returns (.ok (some block), cache)
  | none =>
    match get_block_by_hash block_hash with
    | .error _ => .panics "called `Result::unwrap()` on an `Err` value"
    | .ok none => .panics "called `Option::unwrap()` on a `None` value"
    | .ok (some block) => .returns (.ok (some block), (block_hash, block) :: cache)

/-! ## EVM primitive types — `src/module-system/module-implementations/sov-evm/src/evm/primitive_types.rs` -/

/-- Fuel-bounded loop body of `fake_exponential` from the external `revm`
crate (`BlobExcessGasAndPrice::new` calls `calc_blob_gasprice`, which is a
`fake_exponential`).  The Rust loop runs while `numerator_accum > 0`:
`output += numerator_accum; numerator_accum = numerator_accum * numerator /
(denominator * i); i += 1`.  The fuel bound is a modelling device for the
external crate's loop; no claim depends on the numeric value produced. -/
def fake_exponential_go (numerator denominator : Nat) :
    Nat → Nat → Nat → Nat → Nat
  | 0, _, output, accum => output + accum
  | fuel + 1, i, output, accum =>
    if accum = 0 then output
    else fake_exponential_go numerator denominator fuel (i + 1) (output + accum)
      (accum * numerator / (denominator * i))

/-- Rust `fake_exponential(factor, numerator, denominator)` of `revm`:
approximates `factor * e^(numerator / denominator)` by Taylor expansion. -/
def fake_exponential (factor numerator denominator : Nat) : Nat :=
  fake_exponential_go numerator denominator
    (factor * denominator + numerator + 2) 1 0 (factor * denominator) / denominator

/-- Rust `calc_blob_gasprice(excess_blob_gas)` of `revm`:
`fake_exponential(MIN_BLOB_GASPRICE = 1, excess_blob_gas,
BLOB_GASPRICE_UPDATE_FRACTION = 3338477)`. -/
def calc_blob_gasprice (excess_blob_gas : Nat) : Nat :=
  fake_exponential 1 excess_blob_gas 3338477

/-- Embedding of `revm::primitives::BlobExcessGasAndPrice`. -/
structure BlobExcessGasAndPrice where
  excess_blob_gas : Nat
  blob_gasprice : Nat
deriving Repr, DecidableEq

/-- Embedding of `BlobExcessGasAndPrice::new(excess_blob_gas)`: stores the excess blob
gas and the blob gas price computed from it. -/
def BlobExcessGasAndPrice.new (excess_blob_gas : Nat) : BlobExcessGasAndPrice :=
  ⟨excess_blob_gas, calc_blob_gasprice excess_blob_gas⟩

/-- The fields of `reth_primitives::SealedHeader` read by
`From<&SealedBlock> for BlockEnv`.  `base_fee_per_gas` and
`excess_blob_gas` are optional in the header (absent on pre-London /
pre-Cancun headers respectively). -/
structure SealedHeader where
  number : Nat
  beneficiary : Nat
  timestamp : Nat
  mix_hash : Nat
  base_fee_per_gas : Option Nat
  gas_limit : Nat
  excess_blob_gas : Option Nat
deriving Repr, DecidableEq

/-- Embedding of `SealedBlock` of `primitive_types.rs`: a sealed header plus a range of
transaction numbers. -/
structure SealedBlock where
  header : SealedHeader
  transactions_start : Nat
  transactions_stop : Nat
deriving Repr, DecidableEq

/-- Embedding of `BlockEnv` of `primitive_types.rs`. -/
structure BlockEnv where
  number : Nat
  coinbase : Nat
  timestamp : Nat
  prevrandao : Nat
  basefee : Nat
  gas_limit : Nat
  blob_excess_gas_and_price : Option BlobExcessGasAndPrice
deriving Repr, DecidableEq

/-- Embedding of `BlockEnv::get_blob_gasprice`: documented to return `None` if Cancun
is not enabled. -/
def BlockEnv.get_blob_gasprice (b : BlockEnv) : Option Nat :=
  b.blob_excess_gas_and_price.map (·.blob_gasprice)

/-- Embedding of `BlockEnv::get_blob_excess_gas`: documented to return `None` if Cancun
is not enabled. -/
def BlockEnv.get_blob_excess_gas (b : BlockEnv) : Option Nat :=
  b.blob_excess_gas_and_price.map (·.excess_blob_gas)

/-- Embedding of `impl From<&SealedBlock> for BlockEnv`: copies the header fields,
defaulting a missing `base_fee_per_gas` to 0, and unconditionally sets
`blob_excess_gas_and_price` to
`Some(BlobExcessGasAndPrice::new(excess_blob_gas.unwrap_or_default()))`. -/
def BlockEnv.from_sealed_block (block : SealedBlock) : BlockEnv :=
  { number := block.header.number
    coinbase := block.header.beneficiary
    timestamp := block.header.timestamp
    prevrandao := block.header.mix_hash
    basefee := block.header.base_fee_per_gas.getD 0
    gas_limit := block.header.gas_limit
    blob_excess_gas_and_price :=
      some (BlobExcessGasAndPrice.new (block.header.excess_blob_gas.getD 0)) }

/-! ## Demo genesis configuration — `src/examples/demo-stf/src/genesis_config.rs` -/

/-- Embedding of `pub const LOCKED_AMOUNT: u64 = 50`. -/
def LOCKED_AMOUNT : Nat := 50

/-- One entry of `BankConfig::tokens`; only the fields read by
`create_genesis_config` (`token_name`, `salt`) are carried. -/
structure TokenConfig where
  token_name : String
  salt : Nat
deriving Repr, DecidableEq

/-- Embedding of `sov_bank::BankConfig`, restricted to the field `create_genesis_config`
reads. -/
structure BankConfig where
  tokens : List TokenConfig
deriving Repr, DecidableEq

/-- Embedding of `sov_value_setter::ValueSetterConfig`, opaque to `create_genesis_config`. -/
structure ValueSetterConfig where
  payload : Nat
deriving Repr, DecidableEq

/-- Embedding of `sov_accounts::AccountConfig`, opaque to `create_genesis_config`. -/
structure AccountConfig where
  payload : Nat
deriving Repr, DecidableEq

/-- Embedding of `sov_chain_state::ChainStateConfig`, opaque to `create_genesis_config`. -/
structure ChainStateConfig where
  payload : Nat
deriving Repr, DecidableEq

/-- Embedding of `sov_bank::Coins`: an amount and a token address (addresses embedded
as naturals). -/
structure Coins where
  amount : Nat
  token_address : Nat
deriving Repr, DecidableEq

/-- Embedding of `sov_sequencer_registry::SequencerConfig` as constructed by
`create_genesis_config`. -/
structure SequencerConfig where
  seq_rollup_address : Nat
  seq_da_address : Nat
  coins_to_lock : Coins
  is_preferred_sequencer : Bool
deriving Repr, DecidableEq

/-- The `GenesisConfig` assembled by `create_genesis_config` (the unit
value passed for the blob-storage module and the NFT config carry no
data and are dropped). -/
structure GenesisConfig where
  bank : BankConfig
  sequencer_registry : SequencerConfig
  chain_state : ChainStateConfig
  value_setter : ValueSetterConfig
  accounts : AccountConfig
deriving Repr, DecidableEq

/-- Embedding of `read_json_file`: reads a file to a string and parses it, wrapping
each failure in a typed `anyhow` context error — it never panics.  The
filesystem read and the serde parse are external effects, passed in as
the read result and the parse function. -/
def read_json_file {T : Type} (path : String)
    (read_to_string : Except String String)
    (from_str : String → Except String T) : Except String T :=
  match read_to_string with
  | .error _ => .error ("Failed to read genesis from " ++ path)
  | .ok data =>
    match from_str data with
    | .error _ => .error ("Failed to parse genesis from " ++ path)
    | .ok config => .ok config

/-- Embedding of `create_genesis_config`.  The four genesis-file reads are external
effects whose (already `read_json_file`-shaped) results are passed in, and
`sov_bank::get_genesis_token_address` is an external pure function passed
in.  Faithful to the source: a failed file read propagates as a typed
error (`?`); `bank_config.tokens[0]` panics when the token list is empty
(Rust index out of bounds); the sequencer-registry configuration locks
`coins_to_lock` with `amount: LOCKED_AMOUNT` — the compiled-in constant —
and `is_preferred_sequencer: true`; no parameter of the function feeds
the locked amount. -/
def create_genesis_config (sequencer_address : Nat) (sequencer_da_address : Nat)
    (get_genesis_token_address : String → Nat → Nat)
    (bank_read : Except String BankConfig)
    (value_setter_read : Except String ValueSetterConfig)
    (accounts_read : Except String AccountConfig)
    (chain_state_read : Except String ChainStateConfig) :
    PanicOr (Except String GenesisConfig) :=
  match bank_read with
  | .error e => .returns (.error e)
  | .ok bank_config =>
    match bank_config.tokens.head? with
    | none => .panics "index out of bounds: the len is 0 but the index is 0"
    | some token =>
      let token_address := get_genesis_token_address token.token_name token.salt
      let sequencer_registry_config : SequencerConfig :=
        { seq_rollup_address := sequencer_address
          seq_da_address := sequencer_da_address
          coins_to_lock := { amount := LOCKED_AMOUNT, token_address := token_address }
          is_preferred_sequencer := true }
      match value_setter_read with
      | .error e => .returns (.error e)
      | .ok value_setter_config =>
        match accounts_read with
        | .error e => .returns (.error e)
        | .ok accounts_config =>
          match chain_state_read with
          | .error e => .returns (.error e)
          | .ok chain_state_config =>
            .returns (.ok
              { bank := bank_config
                sequencer_registry := sequencer_registry_config
                chain_state := chain_state_config
                value_setter := value_setter_config
                accounts := accounts_config })

/-- The locked amount placed in the sequencer-registry part of a
`create_genesis_config` result, when the call returned one. -/
def genesis_locked_amount : PanicOr (Except String GenesisConfig) → Option Nat
  | .returns (.ok config) => some config.sequencer_registry.coins_to_lock.amount
  | _ => none

/-- Embedding of `sov_cli::wallet_state::PrivateKeyAndAddress`, restricted to opaque
key and address fields. -/
structure PrivateKeyAndAddress where
  private_key : Nat
  address : Nat
deriving Repr, DecidableEq

/-- Embedding of `read_private_key`.  The filesystem read is passed in as its result;
serde parsing and `PrivateKeyAndAddress::is_matching_to_default` are
external functions passed in.  Faithful to the source: a failed file read
hits `.expect("Unable to read file to string")` (process termination); a
failed parse hits `panic!("Unable to convert data {} to
PrivateKeyAndAddress", ...)`; a key whose address does not match hits
`assert!(..., "Inconsistent key data")`; only a readable, parseable,
matching key is returned. -/
def read_private_key (read_to_string : Except String String)
    (parse : String → Option PrivateKeyAndAddress)
    (is_matching_to_default : PrivateKeyAndAddress → Bool) :
    PanicOr PrivateKeyAndAddress :=
  match read_to_string with
  | .error _ => .panics "Unable to read file to string"
  | .ok data =>
    match parse data with
    | none => .panics ("Unable to convert data " ++ data ++ " to PrivateKeyAndAddress")
    | some token_deployer =>
      if is_matching_to_default token_deployer then .returns token_deployer
      else .panics "Inconsistent key data"

/-! ## The batch-execution pipeline

`src/sov-modules/sov-app-template/src/tx_hooks.rs` declares the `TxHooks`
trait (`pre_dispatch_tx_hook`, `post_dispatch_tx_hook`, `enter_apply_batch`,
`post_revert_apply_batch`, `exit_apply_batch`) and the `VerifiedTx` trait
(`sender()`, `runtime_message()`); the `apply_batch` controller that drives
these hooks, the sequencer registry and the transactional working set are
code of this repository that is not under `src/`.  Those parts are
modelled from the specification (§2, §4.1–§4.5, §7, §8). -/

/-- Modelled from the spec (§4.3): the transactional key-value state
behind `WorkingSet`.  The storage engine itself is not under `src/`; only
its access contract (`read`/`write`, checkpoint, revert-to-checkpoint,
commit) is specified, so state is embedded as an association list of
key-value bindings where a write prepends a binding and a read returns the
most recent one.  Checkpointing is modelled in `apply_batch` by retaining
the entry state; revert-to-checkpoint restores it; commit keeps the
current state. -/
structure KVState where
  entries : List (Nat × Nat)
deriving Repr, DecidableEq

/-- Read a key: the most recent binding, if any. -/
def KVState.read (s : KVState) (k : Nat) : Option Nat :=
  s.entries.lookup k

/-- Write a key. -/
def KVState.write (s : KVState) (k v : Nat) : KVState :=
  ⟨(k, v) :: s.entries⟩

/-- The balance bound to an address, zero when absent (spec §4.4: the
registry's stake/balance records live in the same transactional state as
every other module's data). -/
def KVState.balanceOf (s : KVState) (a : Nat) : Nat :=
  (s.read a).getD 0

/-- Credit an amount to an address's balance. -/
def KVState.credit (s : KVState) (a amount : Nat) : KVState :=
  s.write a (s.balanceOf a + amount)

/-- Modelled from the spec (§3, §4.4): a sequencer-registry record
`{DA address, locked stake, is_preferred}` (the registry module is not
under `src/`). -/
structure SequencerRegistration where
  da_address : Nat
  locked_stake : Nat
  is_preferred : Bool
deriving Repr, DecidableEq

/-- Modelled from the spec (§4.4): the registry mapping from sequencer
rollup-address to its registration record. -/
abbrev Registry := List (Nat × SequencerRegistration)

/-- Modelled from the spec (§7): admission failure — sequencer
unregistered or under-collateralized. -/
inductive AdmissionError where
  | unregistered
  | insufficientStake
deriving Repr, DecidableEq

/-- Modelled from the spec (§9, design note on configuration): the
economic parameters handed to the batch controller at construction — the
minimum stake gating admission and the reward credited on commit. -/
structure PipelineConfig where
  minimum_stake : Nat
  reward_amount : Nat
deriving Repr, DecidableEq

/-- Raw transaction bytes as submitted (spec §3). -/
abbrev RawTx := List Nat

/-- The `VerifiedTx` trait of `tx_hooks.rs`: a transaction after
verification, exposing `sender()` and `runtime_message()`. -/
structure VerifiedTx where
  sender : Nat
  runtime_message : List Nat
deriving Repr, DecidableEq

/-- Modelled from the spec (§6): the per-transaction outcome alphabet
`Applied | VerificationRejected | DispatchRejected` reported at batch
exit.  A pre-dispatch hook failure rejects and skips the transaction
(§4.2 step 2b) and is reported as `dispatchRejected`. -/
inductive TxOutcome where
  | applied
  | verificationRejected
  | dispatchRejected
deriving Repr, DecidableEq

/-- Modelled from the spec (§4.5, §4.2 step 3): a module dispatch either
succeeds with a mutated state, rejects the transaction (batch continues),
or raises an explicit abort signal (fatal to the batch). -/
inductive DispatchResult where
  | ok (s : KVState)
  | reject
  | abort
deriving Repr, DecidableEq

/-- Modelled from the spec (§4.5): the external module dispatcher,
`dispatch(sender, runtime_message, state_handle)`. -/
abbrev Dispatcher := Nat → List Nat → KVState → DispatchResult

/-- Modelled from the spec (§4.1, §4.2) and the `TxHooks` trait
declaration of `tx_hooks.rs` (the implementations are not under `src/`):
the capability bundle the controller drives.  `verify` is §4.1's
`verify(raw_transaction) -> VerifiedTx | VerificationError`; its type —
taking only the raw transaction, no state — embeds the contract that
verification is a pure function of its input with no state reads or
writes.  The two hooks may read and write the working state and may fail
(errors embedded as `String`). -/
structure Hooks where
  verify : RawTx → Except String VerifiedTx
  pre_dispatch_tx_hook : VerifiedTx → KVState → Except String KVState
  post_dispatch_tx_hook : VerifiedTx → KVState → Except String KVState

/-- Result of processing one transaction: its reported outcome, the state
after the per-transaction step, whether a fatal condition arose (fatal
post-dispatch hook failure or dispatch abort, §4.2 step 3), and how many
times the post-dispatch hook was invoked during the step. -/
structure StepResult where
  outcome : TxOutcome
  state : KVState
  fatal : Bool
  post_hook_calls : Nat
deriving Repr, DecidableEq

/-- Modelled from the spec (§4.2 step 2): processing of a single
transaction.  A verification failure records `verificationRejected` and
skips the transaction without touching state.  A pre-dispatch hook
failure rejects the transaction, rolling its writes back to the
per-transaction boundary.  A dispatch rejection discards the
transaction's effects (its nested checkpoint) and continues; a dispatch
abort is fatal.  After a successful dispatch the post-dispatch hook runs
exactly once; its failure is fatal to the batch. -/
def processTx (H : Hooks) (D : Dispatcher) (tx : RawTx) (s : KVState) : StepResult :=
  match H.verify tx with
  | .error _ => ⟨.verificationRejected, s, false, 0⟩
  | .ok v =>
    match H.pre_dispatch_tx_hook v s with
    | .error _ => ⟨.dispatchRejected, s, false, 0⟩
    | .ok s₁ =>
      match D v.sender v.runtime_message s₁ with
      | .reject => ⟨.dispatchRejected, s, false, 0⟩
      | .abort => ⟨.dispatchRejected, s, true, 0⟩
      | .ok s₂ =>
        match H.post_dispatch_tx_hook v s₂ with
        | .error _ => ⟨.applied, s₂, true, 1⟩
        | .ok s₃ => ⟨.applied, s₃, false, 1⟩

/-- Accumulated result of running the transactions of a batch in order. -/
structure RunAcc where
  outcomes : List TxOutcome
  state : KVState
  fatal : Bool
deriving Repr, DecidableEq

/-- Modelled from the spec (§4.2 step 2, §4.2 ordering guarantee): the
transactions are applied strictly in the supplied order; processing stops
at the first fatal condition. -/
def runTxs (H : Hooks) (D : Dispatcher) : List RawTx → KVState → RunAcc
  | [], s => ⟨[], s, false⟩
  | tx :: rest, s =>
    let r := processTx H D tx s
    if r.fatal then ⟨[r.outcome], r.state, true⟩
    else
      let acc := runTxs H D rest r.state
      ⟨r.outcome :: acc.outcomes, acc.state, acc.fatal⟩

/-- Modelled from the spec (§4.2 step 1, §4.4): the admission part of
`enter_apply_batch` — the sequencer must be registered and its locked
stake must reach the configured minimum. -/
def enter_apply_batch (config : PipelineConfig) (registry : Registry)
    (sequencer : Nat) : Except AdmissionError Unit :=
  match registry.lookup sequencer with
  | none => .error .unregistered
  | some r =>
    if r.locked_stake < config.minimum_stake then .error .insufficientStake
    else .ok ()

/-- Modelled from the spec (§4.2 step 4): `exit_apply_batch(reward_amount)`
credits the reward to the sequencer via the same transactional state the
batch's writes live in, so the credit is part of the same atomic commit. -/
def exit_apply_batch (s : KVState) (sequencer : Nat) (reward_amount : Nat) : KVState :=
  s.credit sequencer reward_amount

/-- Modelled from the spec (§4.2, §6): the controller's verdict on a
batch — rejected at admission, committed with the per-transaction
outcomes and the reward credited, or reverted with the outcomes observed
up to the fatal condition. -/
inductive BatchResult where
  | admissionRejected (e : AdmissionError)
  | committed (outcomes : List TxOutcome) (reward : Nat)
  | reverted (outcomes : List TxOutcome)
deriving Repr, DecidableEq

/-- A finished batch application: the verdict, the resulting durable
state, and whether a checkpoint was ever opened. -/
structure BatchRun where
  result : BatchResult
  final_state : KVState
  checkpoint_opened : Bool
deriving Repr, DecidableEq

/-- Modelled from the spec (§4.2): the `apply_batch` controller (not under
`src/`; only its `TxHooks` trait is).  Admission failure rejects the batch
before any state write and before a checkpoint is opened.  Otherwise a
checkpoint is opened (modelled by retaining the entry state `s₀`) and the
transactions run in order; on a fatal condition the batch reverts — per
§4.2 step 3 and §8 (*Atomicity*), `post_revert_apply_batch` runs and every
write since the checkpoint is discarded, the sequencer receiving no
reward; otherwise `exit_apply_batch` commits the accumulated writes
together with the sequencer's reward in one atomic step. -/
def apply_batch (config : PipelineConfig) (registry : Registry)
    (H : Hooks) (D : Dispatcher) (sequencer : Nat)
    (txs : List RawTx) (s₀ : KVState) : BatchRun :=
  match enter_apply_batch config registry sequencer with
  | .error e => ⟨.admissionRejected e, s₀, false⟩
  | .ok _ =>
    let acc := runTxs H D txs s₀
    if acc.fatal then ⟨.reverted acc.outcomes, s₀, true⟩
    else
      ⟨.committed acc.outcomes config.reward_amount,
        exit_apply_batch acc.state sequencer config.reward_amount, true⟩

/-- Prepend a `verificationRejected` outcome to a batch verdict's outcome
list (helper for stating that a verification failure only inserts an
outcome and changes nothing else). -/
def BatchResult.withVR : BatchResult → BatchResult
  | .admissionRejected e => .admissionRejected e
  | .committed outcomes reward => .committed (.verificationRejected :: outcomes) reward
  | .reverted outcomes => .reverted (.verificationRejected :: outcomes)

/-! ### Concrete instances used to evaluate hypotheses on closed inputs -/

/-- A registry with one sequencer, address 1, holding 50 locked stake. -/
def demoRegistry : Registry := [(1, ⟨5, 50, true⟩)]

/-- Minimum stake 10, reward 7. -/
def demoConfig : PipelineConfig := ⟨10, 7⟩

/-- Minimum stake 100 (above `demoRegistry`'s stake), reward 7. -/
def demoConfigHighMinimum : PipelineConfig := ⟨100, 7⟩

/-- Verification accepting every transaction, sender 1, message = the raw
bytes. -/
def demoVerify : RawTx → Except String VerifiedTx := fun tx => .ok ⟨1, tx⟩

/-- Verification rejecting the empty transaction and accepting the rest. -/
def demoVerifyStrict : RawTx → Except String VerifiedTx := fun tx =>
  match tx with
  | [] => .error "malformed transaction"
  | _ => .ok ⟨1, tx⟩

/-- Hooks whose pre- and post-dispatch steps succeed without writing. -/
def demoHooks : Hooks := ⟨demoVerify, fun _ s => .ok s, fun _ s => .ok s⟩

/-- Hooks whose post-dispatch step always fails. -/
def demoHooksPostFail : Hooks := ⟨demoVerify, fun _ s => .ok s, fun _ _ => .error "post hook failed"⟩

/-- Hooks with strict verification and succeeding pre/post steps. -/
def demoHooksStrict : Hooks := ⟨demoVerifyStrict, fun _ s => .ok s, fun _ s => .ok s⟩

/-- A dispatcher writing the message length under key `100 + sender`. -/
def demoDispatcher : Dispatcher := fun sender msg s => .ok (s.write (100 + sender) msg.length)

/-- The genesis configuration `create_genesis_config 1 2 (fun _ _ => 3)`
produces from successfully read files `⟨[⟨"t", 0⟩]⟩`, `⟨0⟩`, `⟨0⟩`, `⟨0⟩`. -/
def demoGenesisConfig : GenesisConfig :=
  { bank := ⟨[⟨"t", 0⟩]⟩
    sequencer_registry := ⟨1, 2, ⟨50, 3⟩, true⟩
    chain_state := ⟨0⟩
    value_setter := ⟨0⟩
    accounts := ⟨0⟩ }

/-! ## Helper lemmas -/

/-- Crediting an address raises exactly its balance by the amount. -/
theorem KVState.balanceOf_credit (s : KVState) (a amount : Nat) :
    (s.credit a amount).balanceOf a = s.balanceOf a + amount := by
  simp [KVState.credit, KVState.write, KVState.balanceOf, KVState.read, List.lookup]

/-! ## Theorems -/

/-- Claim C1: For any batch that is reverted, the state after
`post_revert_apply_batch` equals the pre-batch state exactly: every write
made since the checkpoint opened by `enter_apply_batch` is discarded and
no key differs from its pre-batch value. -/
theorem apply_batch_revert_atomicity (config : PipelineConfig) (registry : Registry)
    (H : Hooks) (D : Dispatcher) (sequencer : Nat) (txs : List RawTx) (s₀ : KVState)
    (outcomes : List TxOutcome)
    (h : (apply_batch config registry H D sequencer txs s₀).result = .reverted outcomes) :
    (apply_batch config registry H D sequencer txs s₀).final_state = s₀
    ∧ ∀ k, ((apply_batch config registry H D sequencer txs s₀).final_state).read k = s₀.read k := by
  cases he : enter_apply_batch config registry sequencer with
  | error e => simp [apply_batch, he] at h
  | ok u =>
    by_cases hf : (runTxs H D txs s₀).fatal
    · simp [apply_batch, he, hf]
    · simp [apply_batch, he, hf] at h

/-- Witness for C1: a concrete batch whose post-dispatch hook fails is
reverted and leaves the (empty) pre-batch state untouched. -/
theorem apply_batch_revert_atomicity_witness :
    (apply_batch demoConfig demoRegistry demoHooksPostFail demoDispatcher 1 [[0]] ⟨[]⟩).final_state = ⟨[]⟩
    ∧ ∀ k, ((apply_batch demoConfig demoRegistry demoHooksPostFail demoDispatcher 1 [[0]] ⟨[]⟩).final_state).read k
        = (⟨[]⟩ : KVState).read k :=
  apply_batch_revert_atomicity demoConfig demoRegistry demoHooksPostFail demoDispatcher 1 [[0]] ⟨[]⟩
    [.applied] rfl

/-- Claim C2: `post_dispatch_tx_hook` runs exactly once after each
successful dispatch, and whenever it fails, that failure is fatal to the
whole batch: the controller reverts the batch — all writes back to the
batch checkpoint are discarded and the sequencer receives no reward (the
reverted verdict carries no reward and the final state is exactly the
pre-batch state). -/
theorem post_dispatch_hook_once_and_fatal (config : PipelineConfig) (registry : Registry)
    (H : Hooks) (D : Dispatcher) (sequencer : Nat) (tx : RawTx) (rest : List RawTx)
    (s₀ : KVState) (v : VerifiedTx) (s₁ s₂ : KVState)
    (henter : enter_apply_batch config registry sequencer = .ok ())
    (hv : H.verify tx = .ok v)
    (hpre : H.pre_dispatch_tx_hook v s₀ = .ok s₁)
    (hdisp : D v.sender v.runtime_message s₁ = .ok s₂) :
    (processTx H D tx s₀).post_hook_calls = 1
    ∧ ∀ e, H.post_dispatch_tx_hook v s₂ = .error e →
        (processTx H D tx s₀).fatal = true
        ∧ (apply_batch config registry H D sequencer (tx :: rest) s₀).result = .reverted [.applied]
        ∧ (apply_batch config registry H D sequencer (tx :: rest) s₀).final_state = s₀ := by
  refine ⟨?_, ?_⟩
  · cases hpost : H.post_dispatch_tx_hook v s₂ <;>
      simp [processTx, hv, hpre, hdisp, hpost]
  · intro e hpost
    refine ⟨by simp [processTx, hv, hpre, hdisp, hpost], ?_, ?_⟩ <;>
      simp [apply_batch, henter, runTxs, processTx, hv, hpre, hdisp, hpost]

/-- Witness for C2: with a concrete failing post-dispatch hook, the hook
ran once, the step is fatal, and the batch is reverted onto the pre-batch
state. -/
theorem post_dispatch_hook_once_and_fatal_witness :
    (processTx demoHooksPostFail demoDispatcher [0] ⟨[]⟩).post_hook_calls = 1
    ∧ (processTx demoHooksPostFail demoDispatcher [0] ⟨[]⟩).fatal = true
    ∧ (apply_batch demoConfig demoRegistry demoHooksPostFail demoDispatcher 1 [[0]] ⟨[]⟩).result
        = .reverted [.applied]
    ∧ (apply_batch demoConfig demoRegistry demoHooksPostFail demoDispatcher 1 [[0]] ⟨[]⟩).final_state
        = ⟨[]⟩ := by
  have h := post_dispatch_hook_once_and_fatal demoConfig demoRegistry demoHooksPostFail
    demoDispatcher 1 [0] [] ⟨[]⟩ ⟨1, [0]⟩ ⟨[]⟩ ⟨[(101, 1)]⟩ rfl rfl rfl rfl
  exact ⟨h.1, h.2 "post hook failed" rfl⟩

/-- Claim C3: For every sequencer whose locked stake is below the configured
minimum (or who is unregistered), `enter_apply_batch` returns an admission
error, no checkpoint is created, and no write to state occurs anywhere;
the pipeline finishes (back to idle) with the state unchanged. -/
theorem admission_gating_rejects_without_writes (config : PipelineConfig) (registry : Registry)
    (H : Hooks) (D : Dispatcher) (sequencer : Nat) (txs : List RawTx) (s₀ : KVState)
    (h : registry.lookup sequencer = none
      ∨ ∃ r, registry.lookup sequencer = some r ∧ r.locked_stake < config.minimum_stake) :
    (∃ e, (apply_batch config registry H D sequencer txs s₀).result = .admissionRejected e)
    ∧ (apply_batch config registry H D sequencer txs s₀).final_state = s₀
    ∧ (apply_batch config registry H D sequencer txs s₀).checkpoint_opened = false := by
  rcases h with hnone | ⟨r, hr, hlt⟩
  · exact ⟨⟨.unregistered, by simp [apply_batch, enter_apply_batch, hnone]⟩,
      by simp [apply_batch, enter_apply_batch, hnone],
      by simp [apply_batch, enter_apply_batch, hnone]⟩
  · exact ⟨⟨.insufficientStake, by simp [apply_batch, enter_apply_batch, hr, hlt]⟩,
      by simp [apply_batch, enter_apply_batch, hr, hlt],
      by simp [apply_batch, enter_apply_batch, hr, hlt]⟩

/-- Witness for C3: the demo sequencer with 50 locked stake is rejected
under a configured minimum of 100, with no state touched and no
checkpoint opened. -/
theorem admission_gating_rejects_without_writes_witness :
    (∃ e, (apply_batch demoConfigHighMinimum demoRegistry demoHooks demoDispatcher 1 [[0]] ⟨[]⟩).result
        = .admissionRejected e)
    ∧ (apply_batch demoConfigHighMinimum demoRegistry demoHooks demoDispatcher 1 [[0]] ⟨[]⟩).final_state = ⟨[]⟩
    ∧ (apply_batch demoConfigHighMinimum demoRegistry demoHooks demoDispatcher 1 [[0]] ⟨[]⟩).checkpoint_opened
        = false :=
  admission_gating_rejects_without_writes demoConfigHighMinimum demoRegistry demoHooks
    demoDispatcher 1 [[0]] ⟨[]⟩ (Or.inr ⟨⟨5, 50, true⟩, rfl, by decide⟩)

/-- Claim C4: The reward amount passed to `exit_apply_batch` is credited to
the sequencer's balance if and only if the batch reaches the committed
state, and the credit lands in the same atomic commit as the batch's
other writes (the committed state is exactly `exit_apply_batch` applied
to the post-transactions state); a reverted (or admission-rejected) batch
credits nothing — its final state is the pre-batch state. -/
theorem reward_credited_iff_committed (config : PipelineConfig) (registry : Registry)
    (H : Hooks) (D : Dispatcher) (sequencer : Nat) (txs : List RawTx) (s₀ : KVState) :
    (∀ outcomes reward,
      (apply_batch config registry H D sequencer txs s₀).result = .committed outcomes reward →
        reward = config.reward_amount
        ∧ (apply_batch config registry H D sequencer txs s₀).final_state
            = exit_apply_batch (runTxs H D txs s₀).state sequencer config.reward_amount
        ∧ ((apply_batch config registry H D sequencer txs s₀).final_state).balanceOf sequencer
            = ((runTxs H D txs s₀).state).balanceOf sequencer + config.reward_amount)
    ∧ (∀ outcomes,
      (apply_batch config registry H D sequencer txs s₀).result = .reverted outcomes →
        (apply_batch config registry H D sequencer txs s₀).final_state = s₀)
    ∧ (∀ e,
      (apply_batch config registry H D sequencer txs s₀).result = .admissionRejected e →
        (apply_batch config registry H D sequencer txs s₀).final_state = s₀) := by
  refine ⟨?_, ?_, ?_⟩
  · intro outcomes reward h
    cases he : enter_apply_batch config registry sequencer with
    | error e => simp [apply_batch, he] at h
    | ok u =>
      by_cases hf : (runTxs H D txs s₀).fatal
      · simp [apply_batch, he, hf] at h
      · refine ⟨?_, ?_, ?_⟩
        · simp [apply_batch, he, hf] at h
          exact h.2.symm
        · simp [apply_batch, he, hf]
        · simp [apply_batch, he, hf, exit_apply_batch, KVState.balanceOf_credit]
  · intro outcomes h
    cases he : enter_apply_batch config registry sequencer with
    | error e => simp [apply_batch, he] at h
    | ok u =>
      by_cases hf : (runTxs H D txs s₀).fatal
      · simp [apply_batch, he, hf]
      · simp [apply_batch, he, hf] at h
  · intro e h
    cases he : enter_apply_batch config registry sequencer with
    | error e₂ => simp [apply_batch, he]
    | ok u =>
      by_cases hf : (runTxs H D txs s₀).fatal <;> simp [apply_batch, he, hf] at h

/-- Witness for C4: a concrete committed batch credits exactly the
configured reward of 7 to sequencer 1 in the same commit, while the
concrete reverted batch of the C1/C2 scenario credits nothing. -/
theorem reward_credited_iff_committed_witness :
    (7 : Nat) = demoConfig.reward_amount
    ∧ (apply_batch demoConfig demoRegistry demoHooks demoDispatcher 1 [[0]] ⟨[]⟩).final_state
        = exit_apply_batch (runTxs demoHooks demoDispatcher [[0]] ⟨[]⟩).state 1 demoConfig.reward_amount
    ∧ ((apply_batch demoConfig demoRegistry demoHooks demoDispatcher 1 [[0]] ⟨[]⟩).final_state).balanceOf 1
        = ((runTxs demoHooks demoDispatcher [[0]] ⟨[]⟩).state).balanceOf 1 + demoConfig.reward_amount :=
  (reward_credited_iff_committed demoConfig demoRegistry demoHooks demoDispatcher 1 [[0]] ⟨[]⟩).1
    [.applied] 7 rfl

/-- Claim C9: `BlockCache::get_block` never returns `Ok(None)`: any normal
return carries `Ok(Some(block))`; a cache hit returns the cached block; a
provider hit returns the provider's block; and when the block is absent
from both the cache and the provider (provider answers `Ok(None)`), or the
provider errors, the function panics instead of returning a typed error or
`Ok(None)`, despite its `EthResult<Option<Rich<Block>>>` return type. -/
theorem get_block_never_ok_none (cache : BlockCacheMap)
    (get_block_by_hash : BlockHash → Except String (Option RichBlock))
    (block_hash : BlockHash) :
    (∀ res cache', BlockCache.get_block cache get_block_by_hash block_hash =
        .returns (res, cache') → ∃ b, res = .ok (some b))
    ∧ (cache.lookup block_hash = none → get_block_by_hash block_hash = .ok none →
        ∃ msg, BlockCache.get_block cache get_block_by_hash block_hash = .panics msg)
    ∧ (∀ b, cache.lookup block_hash = some b →
        BlockCache.get_block cache get_block_by_hash block_hash =
          .returns (.ok (some b), cache)) := by
  refine ⟨?_, ?_, ?_⟩
  · intro res cache' h
    cases hc : cache.lookup block_hash with
    | some b =>
      simp [BlockCache.get_block, hc] at h
      exact ⟨b, h.1.symm⟩
    | none =>
      cases hp : get_block_by_hash block_hash with
      | error e => simp [BlockCache.get_block, hc, hp] at h
      | ok ob =>
        cases ob with
        | none => simp [BlockCache.get_block, hc, hp] at h
        | some b =>
          simp [BlockCache.get_block, hc, hp] at h
          exact ⟨b, h.1.symm⟩
  · intro hc hp
    refine ⟨"called `Option::unwrap()` on a `None` value", ?_⟩
    simp [BlockCache.get_block, hc, hp]
  · intro b hc
    simp [BlockCache.get_block, hc]

/-- Witness for C9: with an empty cache and a provider that knows no
blocks, `get_block` panics. -/
theorem get_block_never_ok_none_witness :
    ∃ msg, BlockCache.get_block [] (fun _ => .ok none) 0 = .panics msg :=
  (get_block_never_ok_none [] (fun _ => .ok none) 0).2.1 rfl rfl

/-- Claim C10: For every `SealedBlock`, the `BlockEnv` produced by
`From<&SealedBlock>` has `blob_excess_gas_and_price` set to `Some`, with a
missing header `excess_blob_gas` defaulted to 0, so `get_blob_gasprice`
and `get_blob_excess_gas` both return `Some` on it — for pre-Cancun
headers (where `excess_blob_gas` is `None`) included. -/
theorem from_sealed_block_blob_fields_always_some (block : SealedBlock) :
    (BlockEnv.from_sealed_block block).get_blob_excess_gas =
      some (block.header.excess_blob_gas.getD 0)
    ∧ (BlockEnv.from_sealed_block block).get_blob_gasprice =
      some (calc_blob_gasprice (block.header.excess_blob_gas.getD 0)) :=
  ⟨rfl, rfl⟩

/-- Claim C5: Transaction verification — the step turning a raw transaction
into a `VerifiedTx` exposing `sender` and `runtime_message` — is a pure
function of the raw transaction bytes alone (its very type,
`RawTx → Except String VerifiedTx`, takes no state): inside the pipeline,
whether a transaction is verification-rejected is the same at any two
states, the rejection happens exactly when `verify` errors, and a
rejecting verification step performs no state write (the step returns the
entry state unchanged). -/
theorem verification_pure_and_stateless (H : Hooks) (D : Dispatcher) (tx : RawTx) :
    (∀ s, (processTx H D tx s).outcome = .verificationRejected ↔ ∃ e, H.verify tx = .error e)
    ∧ (∀ s s₂, (processTx H D tx s).outcome = .verificationRejected
        ↔ (processTx H D tx s₂).outcome = .verificationRejected)
    ∧ (∀ s e, H.verify tx = .error e → processTx H D tx s = ⟨.verificationRejected, s, false, 0⟩) := by
  have key : ∀ s, (processTx H D tx s).outcome = .verificationRejected ↔ ∃ e, H.verify tx = .error e := by
    intro s
    cases hv : H.verify tx with
    | error e => simp [processTx, hv]
    | ok v =>
      cases hpre : H.pre_dispatch_tx_hook v s with
      | error e => simp [processTx, hv, hpre]
      | ok s₁ =>
        cases hd : D v.sender v.runtime_message s₁ with
        | ok s₂ =>
          cases hpost : H.post_dispatch_tx_hook v s₂ <;>
            simp [processTx, hv, hpre, hd, hpost]
        | reject => simp [processTx, hv, hpre, hd]
        | abort => simp [processTx, hv, hpre, hd]
  exact ⟨key, fun s s₂ => (key s).trans (key s₂).symm,
    fun s e hv => by simp [processTx, hv]⟩

/-- Witness for C5: the strict demo verification rejects the empty
transaction identically from two different states, without writing. -/
theorem verification_pure_and_stateless_witness :
    ((processTx demoHooksStrict demoDispatcher [] ⟨[]⟩).outcome = .verificationRejected
      ↔ (processTx demoHooksStrict demoDispatcher [] ⟨[(4, 4)]⟩).outcome = .verificationRejected)
    ∧ processTx demoHooksStrict demoDispatcher [] ⟨[(4, 4)]⟩
        = ⟨.verificationRejected, ⟨[(4, 4)]⟩, false, 0⟩ :=
  ⟨(verification_pure_and_stateless demoHooksStrict demoDispatcher []).2.1 ⟨[]⟩ ⟨[(4, 4)]⟩,
   (verification_pure_and_stateless demoHooksStrict demoDispatcher []).2.2 ⟨[(4, 4)]⟩
     "malformed transaction" rfl⟩

/-- Claim C6: A verification failure on one transaction never aborts the
batch: the failing transaction is skipped and recorded as a
`verificationRejected` outcome, and the batch otherwise behaves exactly
as the batch without that transaction — the remaining valid transactions
are still dispatched from the same states and their effects committed,
with the same verdict, final state and checkpoint. -/
theorem verification_failure_skips_not_aborts (config : PipelineConfig) (registry : Registry)
    (H : Hooks) (D : Dispatcher) (sequencer : Nat) (tx : RawTx) (rest : List RawTx)
    (s₀ : KVState) (e : String) (hv : H.verify tx = .error e) :
    runTxs H D (tx :: rest) s₀ =
      ⟨.verificationRejected :: (runTxs H D rest s₀).outcomes,
        (runTxs H D rest s₀).state, (runTxs H D rest s₀).fatal⟩
    ∧ apply_batch config registry H D sequencer (tx :: rest) s₀ =
      { result := ((apply_batch config registry H D sequencer rest s₀).result).withVR
        final_state := (apply_batch config registry H D sequencer rest s₀).final_state
        checkpoint_opened := (apply_batch config registry H D sequencer rest s₀).checkpoint_opened } := by
  have hrun : runTxs H D (tx :: rest) s₀ =
      ⟨.verificationRejected :: (runTxs H D rest s₀).outcomes,
        (runTxs H D rest s₀).state, (runTxs H D rest s₀).fatal⟩ := by
    simp [runTxs, processTx, hv]
  refine ⟨hrun, ?_⟩
  cases he : enter_apply_batch config registry sequencer with
  | error e₂ => simp [apply_batch, he, BatchResult.withVR]
  | ok u =>
    by_cases hf : (runTxs H D rest s₀).fatal
    · simp [apply_batch, he, hrun, hf, BatchResult.withVR]
    · simp [apply_batch, he, hrun, hf, BatchResult.withVR]

/-- Witness for C6: a batch whose first transaction is malformed behaves
as the batch of the remaining two valid transactions, with a
`verificationRejected` outcome recorded in front. -/
theorem verification_failure_skips_not_aborts_witness :
    runTxs demoHooksStrict demoDispatcher [[], [1], [2]] ⟨[]⟩ =
      ⟨.verificationRejected :: (runTxs demoHooksStrict demoDispatcher [[1], [2]] ⟨[]⟩).outcomes,
        (runTxs demoHooksStrict demoDispatcher [[1], [2]] ⟨[]⟩).state,
        (runTxs demoHooksStrict demoDispatcher [[1], [2]] ⟨[]⟩).fatal⟩
    ∧ apply_batch demoConfig demoRegistry demoHooksStrict demoDispatcher 1 [[], [1], [2]] ⟨[]⟩ =
      { result := ((apply_batch demoConfig demoRegistry demoHooksStrict demoDispatcher 1 [[1], [2]] ⟨[]⟩).result).withVR
        final_state := (apply_batch demoConfig demoRegistry demoHooksStrict demoDispatcher 1 [[1], [2]] ⟨[]⟩).final_state
        checkpoint_opened := (apply_batch demoConfig demoRegistry demoHooksStrict demoDispatcher 1 [[1], [2]] ⟨[]⟩).checkpoint_opened } :=
  verification_failure_skips_not_aborts demoConfig demoRegistry demoHooksStrict demoDispatcher
    1 [] [[1], [2]] ⟨[]⟩ "malformed transaction" rfl

/-- Claim C7 counterexample: The locked-stake amount in the sequencer
configuration built by `create_genesis_config` is not supplied at
construction: two calls with entirely different arguments (addresses,
token-address function, file contents) both lock amount 50, the
compiled-in literal `LOCKED_AMOUNT`. -/
theorem create_genesis_config_locked_amount_is_literal :
    genesis_locked_amount (create_genesis_config 1 2 (fun _ _ => 3)
        (.ok ⟨[⟨"t", 0⟩]⟩) (.ok ⟨0⟩) (.ok ⟨0⟩) (.ok ⟨0⟩)) = some 50
    ∧ genesis_locked_amount (create_genesis_config 424242 999 (fun _ _ => 77)
        (.ok ⟨[⟨"another-token", 123⟩]⟩) (.ok ⟨5⟩) (.ok ⟨6⟩) (.ok ⟨7⟩)) = some 50
    ∧ LOCKED_AMOUNT = 50 :=
  ⟨rfl, rfl, rfl⟩

/-- Claim C7 as amended: Every sequencer configuration produced by
`create_genesis_config` locks exactly the compiled-in constant
`LOCKED_AMOUNT` — no argument varies it — while the admission decision
itself (registry modelled from the spec) is a function of the configured
minimum stake: the same registered sequencer is admitted under a minimum
below its stake and rejected under a minimum above it. -/
theorem locked_amount_literal_admission_configurable :
    (∀ (a d : Nat) (g : String → Nat → Nat)
        (br : Except String BankConfig) (vr : Except String ValueSetterConfig)
        (ar : Except String AccountConfig) (cr : Except String ChainStateConfig)
        (cfg : GenesisConfig),
      create_genesis_config a d g br vr ar cr = .returns (.ok cfg) →
        cfg.sequencer_registry.coins_to_lock.amount = LOCKED_AMOUNT)
    ∧ (∀ (m₁ m₂ rw₁ rw₂ sequencer : Nat) (r : SequencerRegistration),
        m₁ ≤ r.locked_stake → r.locked_stake < m₂ →
        enter_apply_batch ⟨m₁, rw₁⟩ [(sequencer, r)] sequencer = .ok ()
        ∧ enter_apply_batch ⟨m₂, rw₂⟩ [(sequencer, r)] sequencer = .error .insufficientStake) := by
  constructor
  · intro a d g br vr ar cr cfg h
    cases br with
    | error e => simp [create_genesis_config] at h
    | ok bank =>
      cases ht : bank.tokens.head? with
      | none => simp [create_genesis_config, ht] at h
      | some token =>
        cases vr with
        | error e => simp [create_genesis_config, ht] at h
        | ok vsc =>
          cases ar with
          | error e => simp [create_genesis_config, ht] at h
          | ok asc =>
            cases cr with
            | error e => simp [create_genesis_config, ht] at h
            | ok csc =>
              simp [create_genesis_config, ht] at h
              subst h
              rfl
  · intro m₁ m₂ rw₁ rw₂ sequencer r h₁ h₂
    constructor
    · simp [enter_apply_batch, List.lookup]
      omega
    · simp [enter_apply_batch, List.lookup]
      omega

/-- Witness for C7 (amended): the concrete demo genesis call locks 50,
and the demo sequencer (stake 50) is admitted at minimum 10 but rejected
at minimum 100. -/
theorem locked_amount_literal_admission_configurable_witness :
    demoGenesisConfig.sequencer_registry.coins_to_lock.amount = LOCKED_AMOUNT
    ∧ (enter_apply_batch ⟨10, 7⟩ [(1, ⟨5, 50, true⟩)] 1 = .ok ()
      ∧ enter_apply_batch ⟨100, 7⟩ [(1, ⟨5, 50, true⟩)] 1 = .error .insufficientStake) :=
  ⟨locked_amount_literal_admission_configurable.1 1 2 (fun _ _ => 3)
      (.ok ⟨[⟨"t", 0⟩]⟩) (.ok ⟨0⟩) (.ok ⟨0⟩) (.ok ⟨0⟩) demoGenesisConfig rfl,
   locked_amount_literal_admission_configurable.2 10 100 7 7 1 ⟨5, 50, true⟩
      (by decide) (by decide)⟩

/-- Claim C8 counterexample: `read_private_key` — an input-handling path of
a public operation — terminates the process on bad input: an unreadable
key file hits `.expect("Unable to read file to string")` instead of
returning a typed failure. -/
theorem read_private_key_panics_on_bad_input :
    read_private_key (.error "No such file or directory") (fun _ => none) (fun _ => true)
      = .panics "Unable to read file to string" :=
  rfl

/-- Claim C8 as amended: Genesis-file loading returns typed failures
(`read_json_file` wraps read and parse failures in context errors;
`create_genesis_config` propagates them as `Err`), but two public
operations do terminate the process on bad input: `read_private_key`
panics on an unreadable file, an unparseable key, or a mismatched key,
and `BlockCache::get_block` panics when the block is absent from cache
and provider. -/
theorem typed_failures_except_key_and_cache_paths :
    (∀ (path e : String) (from_str : String → Except String BankConfig),
      read_json_file path (.error e) from_str
        = .error ("Failed to read genesis from " ++ path))
    ∧ (∀ (path data : String) (from_str : String → Except String BankConfig) (e : String),
      from_str data = .error e →
      read_json_file path (.ok data) from_str
        = .error ("Failed to parse genesis from " ++ path))
    ∧ (∀ (a d : Nat) (g : String → Nat → Nat) (vr : Except String ValueSetterConfig)
        (ar : Except String AccountConfig) (cr : Except String ChainStateConfig) (e : String),
      create_genesis_config a d g (.error e) vr ar cr = .returns (.error e))
    ∧ (∀ (p : String → Option PrivateKeyAndAddress) (m : PrivateKeyAndAddress → Bool) (e : String),
      read_private_key (.error e) p m = .panics "Unable to read file to string")
    ∧ (∀ (data : String) (p : String → Option PrivateKeyAndAddress)
        (m : PrivateKeyAndAddress → Bool),
      p data = none →
      read_private_key (.ok data) p m
        = .panics ("Unable to convert data " ++ data ++ " to PrivateKeyAndAddress"))
    ∧ (∀ (data : String) (p : String → Option PrivateKeyAndAddress)
        (m : PrivateKeyAndAddress → Bool) (td : PrivateKeyAndAddress),
      p data = some td → m td = false →
      read_private_key (.ok data) p m = .panics "Inconsistent key data")
    ∧ (∀ (cache : BlockCacheMap) (prov : BlockHash → Except String (Option RichBlock))
        (h : BlockHash),
      cache.lookup h = none → prov h = .ok none →
      BlockCache.get_block cache prov h
        = .panics "called `Option::unwrap()` on a `None` value") := by
  refine ⟨fun path e from_str => rfl, ?_, fun a d g vr ar cr e => rfl, fun p m e => rfl, ?_, ?_, ?_⟩
  · intro path data from_str e hp
    simp [read_json_file, hp]
  · intro data p m hp
    simp [read_private_key, hp]
  · intro data p m td hp hm
    simp [read_private_key, hp, hm]
  · intro cache prov h hc hp
    simp [BlockCache.get_block, hc, hp]

/-- Witness for C8 (amended): concrete bad inputs exercise the typed
failure of `read_json_file` and the panics of `read_private_key` and
`get_block`. -/
theorem typed_failures_except_key_and_cache_paths_witness :
    read_json_file "bank.json" (.ok "not json") (fun _ => (.error "bad" : Except String BankConfig))
      = .error ("Failed to parse genesis from " ++ "bank.json")
    ∧ read_private_key (.ok "junk") (fun _ => none) (fun _ => true)
      = .panics ("Unable to convert data " ++ "junk" ++ " to PrivateKeyAndAddress")
    ∧ read_private_key (.ok "mismatched") (fun _ => some ⟨1, 2⟩) (fun _ => false)
      = .panics "Inconsistent key data"
    ∧ BlockCache.get_block [] (fun _ => .ok none) 0
      = .panics "called `Option::unwrap()` on a `None` value" :=
  ⟨typed_failures_except_key_and_cache_paths.2.1 "bank.json" "not json" (fun _ => .error "bad") "bad" rfl,
   typed_failures_except_key_and_cache_paths.2.2.2.2.1 "junk" (fun _ => none) (fun _ => true) rfl,
   typed_failures_except_key_and_cache_paths.2.2.2.2.2.1 "mismatched" (fun _ => some ⟨1, 2⟩)
     (fun _ => false) ⟨1, 2⟩ rfl rfl,
   typed_failures_except_key_and_cache_paths.2.2.2.2.2.2 [] (fun _ => .ok none) 0 rfl rfl⟩
